import Mathlib

/-!
Verification development for the ContractIQ repository (a retrieval-augmented
contract question-answering service).  The Python sources `src/backend.py` and
`src/testset_generator.py` are shallowly embedded below: pure data flow is
translated directly, and every external collaborator (PDF text extraction,
the `chunk_by_title` chunker, the vector store, the LLM, the Ragas transform
pipeline and testset generator) is passed in as an explicit function, so the
orchestration logic of the repository itself is what the theorems are about.
Machine floats used for scores are modelled as rationals; Python string
helpers (`strip`, `lower`, `in`, `endswith`) are modelled on character lists.
-/

namespace ContractIQ

/-! ## Python string primitives -/

/-- Whitespace characters removed by Python `str.strip()` (ASCII range). -/
def pyWhitespace (c : Char) : Bool :=
  c = ' ' || c = '\t' || c = '\n' || c = '\r' || c = '\x0b' || c = '\x0c'

/-- Python `s.strip()`: drop leading and trailing whitespace. -/
def pyStrip (s : String) : String :=
  ⟨((s.data.dropWhile pyWhitespace).reverse.dropWhile pyWhitespace).reverse⟩

/-- Python `s.lower()` (ASCII case folding suffices for the messages involved). -/
def pyLower (s : String) : String :=
  ⟨s.data.map Char.toLower⟩

/-- Does `l` start with `p`? (list-level prefix test). -/
def starts_with : List Char → List Char → Bool
  | _, [] => true
  | [], _ :: _ => false
  | c :: cs, p :: ps => c == p && starts_with cs ps

/-- Does `s` contain `pat` as a contiguous substring? -/
def has_substr : List Char → List Char → Bool
  | [], pat => pat.isEmpty
  | c :: rest, pat => starts_with (c :: rest) pat || has_substr rest pat

/-- Python `pat in s` on strings. -/
def str_contains (s pat : String) : Bool :=
  has_substr s.data pat.data

/-- Python `s.endswith(pat)`. -/
def str_ends_with (s pat : String) : Bool :=
  starts_with s.data.reverse pat.data.reverse

/-! ## Data model (langchain `Document` as produced by `chunk_text`) -/

/-- Metadata attached to a chunk document (src/backend.py, `chunk_text`).
`none` models an absent dictionary key. -/
structure DocMeta where
  source_file : Option String
  chunk_id : Option Nat
  total_chunks : Option Nat
  chunk_type : Option String
  deriving DecidableEq

/-- A langchain `Document`: page content plus metadata. -/
structure Document where
  page_content : String
  metadata : DocMeta
  deriving DecidableEq

/-! ## Chunker (src/backend.py `chunk_text`, lines 98-128)

The external `unstructured.chunk_by_title` call is abstracted as `chunker`,
a function from the input text to the list of chunk texts.  The embedded code
is the post-processing the repository performs on the chunker's output. -/

/-- Shallow embedding of `chunk_text(text, source_file, max_chars)`:
`for i, chunk in enumerate(chunks, 1)` builds one `Document` per chunk with
`chunk_id = i`, `total_chunks = len(chunks)` and the given `source_file`. -/
def chunk_text (chunker : String → List String) (text : String)
    (source_file : String) : List Document :=
  let chunks := chunker text
  (List.enumFrom 1 chunks).map fun p =>
    { page_content := p.2,
      metadata :=
        { source_file := some source_file,
          chunk_id := some p.1,
          total_chunks := some chunks.length,
          chunk_type := some "title_based" } }

/-! ## Ingestion (src/backend.py `ingest_pdf`, lines 262-329) -/

/-- Embedding of `extract_text_from_pdf` (src/backend.py lines 90-96): the
pdfminer call is abstracted as its outcome `raw`; on success the text is
stripped, on failure the message is wrapped. -/
def extract_text_from_pdf (raw : Except String String) : Except String String :=
  match raw with
  | .ok text => .ok (pyStrip text)
  | .error e => .error ("Error extracting text from PDF: " ++ e)

/-- The `details` payload of a successful ingestion response. -/
structure IngestDetails where
  filename : String
  chunks_created : Nat
  text_length : Nat
  deriving DecidableEq

/-- FastAPI `HTTPException`s raised by the endpoints: 400 vs 500. -/
inductive HTTPError where
  | badRequest (detail : String)
  | internalError (detail : String)
  deriving DecidableEq

/-- Observable side effects of one ingestion call: whether `chunk_text` was
invoked and which documents were passed to `VECTOR_STORE.add_documents`. -/
structure IngestTrace where
  chunkCalled : Bool
  addedDocs : List Document
  deriving DecidableEq

/-- Shallow embedding of the `/ingest` endpoint `ingest_pdf`:
initialization check, `.pdf` suffix check, text extraction, the
`not text or len(text.strip()) < 100` guard, chunking, empty-chunk guard,
then the batch `add_documents` call.  `extraction` is the pdfminer outcome. -/
def ingest_pdf (initialized : Bool) (filename : String)
    (extraction : Except String String)
    (chunker : String → List String) :
    Except HTTPError IngestDetails × IngestTrace :=
  if initialized = false then
    (.error (.badRequest "System not initialized. Check backend logs and .env configuration."),
     ⟨false, []⟩)
  else if str_ends_with filename ".pdf" = false then
    (.error (.badRequest "Only PDF files are supported"), ⟨false, []⟩)
  else
    match extract_text_from_pdf extraction with
    | .error e => (.error (.internalError ("Ingestion failed: " ++ e)), ⟨false, []⟩)
    | .ok text =>
      if text = "" ∨ (pyStrip text).length < 100 then
        (.error (.badRequest "PDF appears to be empty or contains insufficient text"),
         ⟨false, []⟩)
      else
        let documents := chunk_text chunker text filename
        if documents = [] then
          (.error (.badRequest "Failed to create chunks from PDF"), ⟨true, []⟩)
        else
          (.ok ⟨filename, documents.length, text.length⟩, ⟨true, documents⟩)

/-! ## Query path (src/backend.py `init_system` lines 147-238 and
`query_documents` lines 331-367)

The embeddings model, vector store and LLM are collaborators.  The QA chain
is assembled at startup: its retriever is fixed to `k = DB_CONFIG.num_results`
and the `stuff` chain renders the prompt template over the retrieved
documents.  Distances/scores are rationals in place of floats. -/

/-- The configuration fields of `DB_CONFIG` that the embedded logic reads. -/
structure DBConfig where
  collection_name : String
  num_results : Nat

/-- External collaborators of the query path: the retriever underlying the QA
chain, the LLM completion, and `similarity_search_with_score` of the store. -/
structure Collaborators where
  retrieve : String → Nat → List Document
  llm : String → String
  search_with_score : String → Nat → List (Document × ℚ)

/-- The `stuff` chain: retrieved page contents joined as the context block. -/
def stuff_context (docs : List Document) : String :=
  String.intercalate "\n\n" (docs.map Document.page_content)

/-- The prompt template of `init_system` with `context` and `question`
substituted (apostrophes of the original wording elided). -/
def render_prompt (context question : String) : String :=
  "You are a helpful AI assistant specialized in analyzing contract documents. \nUse the following pieces of context from contract documents to answer the question at the end.\nIf you do not know the answer based on the context, just say that you do not know, do not make up an answer.\nProvide detailed, well-structured answers with relevant citations from the contracts when applicable.\n\nContext:\n"
    ++ context ++ "\n\nQuestion: " ++ question ++ "\n\nDetailed Answer:"

/-- The state built by startup initialization: the QA chain (answer plus
source documents) and the store search function. -/
structure RAGSystem where
  qa_chain : String → String × List Document
  store : String → Nat → List (Document × ℚ)

/-- Shallow embedding of `init_system` (source name `initialize_system`,
src/backend.py lines 147-238): the retriever is created with
`k = cfg.num_results`, and `RetrievalQA.from_chain_type` closes over it, so
the chain's retrieval width is fixed at startup. -/
def init_system (cfg : DBConfig) (c : Collaborators) : RAGSystem :=
  { qa_chain := fun question =>
      let docs := c.retrieve question cfg.num_results
      (c.llm (render_prompt (stuff_context docs) question), docs),
    store := c.search_with_score }

/-- A request to the `/query` endpoint. -/
structure QueryRequest where
  query : String
  num_results : Nat

/-- One entry of the `sources` list assembled by `query_documents`. -/
structure Source where
  rank : Nat
  content : String
  similarity_score : ℚ
  source_file : String
  chunk_id : Option Nat
  total_chunks : Option Nat
  deriving DecidableEq

/-- The source dictionary built for rank `i` from `(doc, score)`:
`similarity_score = float(1 - score)`. -/
def mkSource (i : Nat) (doc : Document) (score : ℚ) : Source :=
  { rank := i,
    content := doc.page_content,
    similarity_score := 1 - score,
    source_file := doc.metadata.source_file.getD "Unknown",
    chunk_id := doc.metadata.chunk_id,
    total_chunks := doc.metadata.total_chunks }

/-- Response of the `/query` endpoint. -/
structure QueryResponse where
  answer : String
  sources : List Source

/-- Shallow embedding of `query_documents` (src/backend.py lines 331-367):
`similarity_search_with_score(query, k=request.num_results)` produces the
scored documents, the QA chain is invoked with only the query, and
`enumerate(docs_with_scores, 1)` numbers the sources. -/
def query_documents (sys : RAGSystem) (req : QueryRequest) : QueryResponse :=
  let docs_with_scores := sys.store req.query req.num_results
  let response := sys.qa_chain req.query
  { answer := response.1,
    sources := (List.enumFrom 1 docs_with_scores).map fun p =>
      mkSource p.1 p.2.1 p.2.2 }

/-! ## Knowledge-graph builder
(src/testset_generator.py `create_knowledge_graph_from_documents`,
lines 77-195)

The Ragas `default_transforms` + `apply_transforms` pair is abstracted as an
oracle indexed by a global call counter and given the documents passed to it;
a call either atomically extends the graph with new nodes and relationships
or raises with a message.  `time.sleep(retry_delay)` calls are recorded in
the trace. -/

/-- A node of the Ragas knowledge graph. -/
structure KGNode where
  isDocument : Bool
  page_content : String
  document_metadata : Option DocMeta
  deriving DecidableEq

/-- A relationship edge added by enrichment (kept abstract). -/
structure KGRel where
  label : String
  deriving DecidableEq

/-- The Ragas `KnowledgeGraph`: nodes plus relationships. -/
structure KnowledgeGraph where
  nodes : List KGNode
  relationships : List KGRel
  deriving DecidableEq

/-- The DOCUMENT node appended for one input document. -/
def docNode (d : Document) : KGNode :=
  { isDocument := true, page_content := d.page_content,
    document_metadata := some d.metadata }

/-- Outcome of one `default_transforms` + `apply_transforms` call. -/
inductive TransformOutcome where
  | ok (newNodes : List KGNode) (newRels : List KGRel)
  | err (msg : String)
  deriving DecidableEq

/-- Rate-limit detection of the retry loops
(`"rate_limit" in error_str.lower() or "429" in error_str`). -/
def is_rate_limit (error_str : String) : Bool :=
  str_contains (pyLower error_str) "rate_limit" || str_contains error_str "429"

/-- Observable behaviour of one knowledge-graph build: whether the fast-mode
pipeline was called, how many full-path transform attempts ran, which
document list the full path handed to the transforms, and the sleeps. -/
structure BuildTrace where
  fastCalled : Bool
  fullAttempts : Nat
  fullDocsArg : Option (List Document)
  sleeps : List Nat
  deriving DecidableEq

/-- The sampling cap `max_docs_for_transforms = 30` of the full path. -/
def max_docs_for_transforms : Nat := 30

/-- Python `range(0, stop, step)` for `step ≥ 1` (empty when `step = 0`,
which the embedded code never reaches). -/
def pyRange (stop step : Nat) : List Nat :=
  (List.range ((stop + step - 1) / step)).map fun k => k * step

/-- The even-stride sampling of the full path (lines 147-148):
`step = len(documents) // 30` and
`[documents[i] for i in range(0, len(documents), step)][:30]`. -/
def sample_documents {α : Type} (documents : List α) : List α :=
  let step := documents.length / max_docs_for_transforms
  ((pyRange documents.length step).filterMap fun i => documents[i]?).take
    max_docs_for_transforms

/-- The full-path retry loop (`for attempt in range(self.max_retries)`),
structurally recursive on the remaining attempts.  `call a` is the transform
pipeline at loop attempt `a`; on success the graph is extended and the loop
breaks; on a rate-limit error with attempts left the loop sleeps
`retry_delay` and continues; otherwise it breaks leaving the graph as is.
Returns the graph, the number of attempts made, and the recorded sleeps. -/
def enrichLoop (call : Nat → TransformOutcome) (retry_delay : Nat)
    (attempt remaining : Nat) (kg : KnowledgeGraph) :
    KnowledgeGraph × Nat × List Nat :=
  match remaining with
  | 0 => (kg, attempt, [])
  | r + 1 =>
    match call attempt with
    | .ok ns rs =>
      ({ nodes := kg.nodes ++ ns, relationships := kg.relationships ++ rs },
       attempt + 1, [])
    | .err msg =>
      if is_rate_limit msg then
        if 0 < r then
          let res := enrichLoop call retry_delay (attempt + 1) r kg
          (res.1, res.2.1, retry_delay :: res.2.2)
        else (kg, attempt + 1, [])
      else (kg, attempt + 1, [])

/-- The full-enrichment block (lines 135-185): sample when the corpus exceeds
the cap, then run the retry loop.  `callBase` offsets the global transform
call counter (1 after a failed fast-mode call, 0 otherwise). -/
def runFullEnrichment (max_retries retry_delay : Nat)
    (oracle : Nat → List Document → TransformOutcome)
    (documents : List Document) (kg : KnowledgeGraph)
    (callBase : Nat) (fastCalled : Bool) : KnowledgeGraph × BuildTrace :=
  let sampled_docs :=
    if documents.length > max_docs_for_transforms then sample_documents documents
    else documents
  let res := enrichLoop (fun a => oracle (callBase + a) sampled_docs)
    retry_delay 0 max_retries kg
  (res.1,
   { fastCalled := fastCalled, fullAttempts := res.2.1,
     fullDocsArg := some sampled_docs, sleeps := res.2.2 })

/-- Shallow embedding of
`ContractTestsetGenerator.create_knowledge_graph_from_documents`
(src/testset_generator.py lines 77-195).  Every document becomes a DOCUMENT
node.  With `skip_transforms` (fast mode) the pipeline runs once on the first
`min(5, n)` documents; if that call raises, the code sets
`skip_transforms = False` and falls through to the full-enrichment block,
which samples and retries on rate limits.  The builder itself never raises:
every pipeline failure degrades. -/
def create_knowledge_graph_from_documents (max_retries retry_delay : Nat)
    (oracle : Nat → List Document → TransformOutcome)
    (documents : List Document) (skip_transforms : Bool) :
    KnowledgeGraph × BuildTrace :=
  let kg : KnowledgeGraph :=
    { nodes := documents.map docNode, relationships := [] }
  if skip_transforms then
    let minimal_docs := documents.take (min 5 documents.length)
    match oracle 0 minimal_docs with
    | .ok ns rs =>
      ({ nodes := kg.nodes ++ ns, relationships := kg.relationships ++ rs },
       { fastCalled := true, fullAttempts := 0, fullDocsArg := none, sleeps := [] })
    | .err _ =>
      runFullEnrichment max_retries retry_delay oracle documents kg 1 true
  else
    runFullEnrichment max_retries retry_delay oracle documents kg 0 false

/-! ## Testset generation
(src/testset_generator.py `generate_testset`, lines 213-279) -/

/-- One row of the generated testset. -/
structure TestsetRow where
  user_input : String
  reference : String
  deriving DecidableEq

/-- Outcome of one `self.generator.generate(...)` call. -/
inductive GenOutcome where
  | ok (rows : List TestsetRow)
  | err (msg : String)
  deriving DecidableEq

/-- Errors `generate_testset` can raise: the `ValueError` precondition, the
explicit rate-limit-exceeded failure after `max_retries` attempts, an
immediately re-raised non-rate-limit error, or the (unreachable for
`max_retries ≥ 1`) fall-through of the loop without a bound testset. -/
inductive GenError where
  | knowledgeGraphMissing
  | rateLimitExceeded (attempts : Nat)
  | propagated (msg : String)
  | loopFellThrough
  deriving DecidableEq

/-- Observable behaviour of one generation call: how many times the
underlying generator was invoked, and the sleeps. -/
structure GenTrace where
  generatorCalls : Nat
  sleeps : List Nat
  deriving DecidableEq

/-- The generation retry loop (`for attempt in range(self.max_retries)`):
success breaks; a rate-limit error sleeps and retries while attempts remain
and otherwise raises the explicit rate-limit-exceeded error; any other error
re-raises immediately. -/
def genLoop (call : Nat → GenOutcome) (max_retries retry_delay : Nat)
    (attempt remaining : Nat) :
    Except GenError (List TestsetRow) × Nat × List Nat :=
  match remaining with
  | 0 => (.error .loopFellThrough, attempt, [])
  | r + 1 =>
    match call attempt with
    | .ok rows => (.ok rows, attempt + 1, [])
    | .err msg =>
      if is_rate_limit msg then
        if 0 < r then
          let res := genLoop call max_retries retry_delay (attempt + 1) r
          (res.1, res.2.1, retry_delay :: res.2.2)
        else (.error (.rateLimitExceeded max_retries), attempt + 1, [])
      else (.error (.propagated msg), attempt + 1, [])

/-- Shallow embedding of `ContractTestsetGenerator.generate_testset`
(src/testset_generator.py lines 213-279): a `None` knowledge graph raises the
`ValueError` precondition before the generator is even constructed; otherwise
the retry loop drives the abstracted `generate` call. -/
def generate_testset (max_retries retry_delay : Nat)
    (knowledge_graph : Option KnowledgeGraph)
    (generate : Nat → GenOutcome) :
    Except GenError (List TestsetRow) × GenTrace :=
  match knowledge_graph with
  | none => (.error .knowledgeGraphMissing, { generatorCalls := 0, sleeps := [] })
  | some _ =>
    let res := genLoop generate max_retries retry_delay 0 max_retries
    (res.1, { generatorCalls := res.2.1, sleeps := res.2.2 })

/-! ## Concrete fixtures used by witnesses and counterexamples -/

/-- A concrete chunk document. -/
def sampleDoc : Document :=
  { page_content := "Termination requires ninety days written notice.",
    metadata :=
      { source_file := some "contract.pdf", chunk_id := some 1,
        total_chunks := some 1, chunk_type := some "title_based" } }

/-- An oracle whose fast-mode call (index 0) raises a non-rate-limit error
and whose full-path calls succeed, adding one relationship. -/
def fallbackOracle : Nat → List Document → TransformOutcome :=
  fun i _ => if i = 0 then .err "boom" else .ok [] [⟨"child"⟩]

/-- A system whose store reports a raw distance of 2 for the single hit. -/
def badDistanceSystem : RAGSystem :=
  { qa_chain := fun q => (q, []),
    store := fun _ _ => [(sampleDoc, (2 : ℚ))] }

/-- A system whose store reports a raw distance of 1/2 for the single hit. -/
def goodDistanceSystem : RAGSystem :=
  { qa_chain := fun q => (q, []),
    store := fun _ _ => [(sampleDoc, (1 / 2 : ℚ))] }

/-- A transform oracle that reports a rate-limit error on every call. -/
def rlOracle : Nat → List Document → TransformOutcome := fun _ _ => .err "429"

/-- A transform oracle that reports a non-rate-limit error on every call. -/
def failOracle : Nat → List Document → TransformOutcome := fun _ _ => .err "boom"

/-- A generator call that reports a rate-limit error on every attempt. -/
def rlGen : Nat → GenOutcome := fun _ => .err "429"

/-- A generator call that reports a non-rate-limit error on every attempt. -/
def failGen : Nat → GenOutcome := fun _ => .err "boom"

/-- A generator call that rate-limits on the first attempt and then fails
with a non-rate-limit error. -/
def mixedGen : Nat → GenOutcome := fun i => if i = 0 then .err "429" else .err "boom"

/-! ## Helper lemmas -/

/-- Mapping a function of the index over `enumFrom` is mapping it over the
index range. -/
lemma map_enumFrom_fst_fn {α β : Type} (f : Nat × α → β) (g : Nat → β)
    (hfg : ∀ p : Nat × α, f p = g p.1) (n : Nat) (l : List α) :
    (List.enumFrom n l).map f = (List.range' n l.length).map g := by
  rw [List.map_congr_left fun p _ => hfg p,
    show (fun p : Nat × α => g p.1) = g ∘ Prod.fst from rfl, ← List.map_map,
    List.enumFrom_map_fst]

/-- Mapping a function of the element over `enumFrom` forgets the indices. -/
lemma map_enumFrom_snd_fn {α β : Type} (f : Nat × α → β) (g : α → β)
    (hfg : ∀ p : Nat × α, f p = g p.2) (n : Nat) (l : List α) :
    (List.enumFrom n l).map f = l.map g := by
  rw [List.map_congr_left fun p _ => hfg p,
    show (fun p : Nat × α => g p.2) = g ∘ Prod.snd from rfl, ← List.map_map,
    List.enumFrom_map_snd]

/-- The ranks of the assembled sources are `1..k` in store order. -/
lemma query_sources_rank_eq (sys : RAGSystem) (req : QueryRequest) :
    (query_documents sys req).sources.map Source.rank =
      List.range' 1 (sys.store req.query req.num_results).length := by
  unfold query_documents
  rw [List.map_map]
  have h := map_enumFrom_fst_fn
    (Source.rank ∘ fun p : Nat × (Document × ℚ) => mkSource p.1 p.2.1 p.2.2)
    (fun i => i) (fun p => rfl) 1 (sys.store req.query req.num_results)
  rw [List.map_id'] at h
  exact h

/-- The similarity scores of the assembled sources are `1 - d` over the
store's raw distances, in store order. -/
lemma query_sources_sim_eq (sys : RAGSystem) (req : QueryRequest) :
    (query_documents sys req).sources.map Source.similarity_score =
      (sys.store req.query req.num_results).map (fun p => 1 - p.2) := by
  unfold query_documents
  rw [List.map_map]
  exact map_enumFrom_snd_fn _ (fun d : Document × ℚ => 1 - d.2) (fun p => rfl) 1 _

/-- Stripping never lengthens a string. -/
lemma pyStrip_length_le (s : String) : (pyStrip s).length ≤ s.length := by
  show (((s.data.dropWhile pyWhitespace).reverse.dropWhile pyWhitespace).reverse).length ≤
    s.data.length
  rw [List.length_reverse]
  calc ((s.data.dropWhile pyWhitespace).reverse.dropWhile pyWhitespace).length
      ≤ (s.data.dropWhile pyWhitespace).reverse.length :=
        (List.dropWhile_sublist _).length_le
    _ = (s.data.dropWhile pyWhitespace).length := List.length_reverse _
    _ ≤ s.data.length := (List.dropWhile_sublist _).length_le

/-- Unfolding: the loop with no remaining attempts stops. -/
lemma enrichLoop_zero (call : Nat → TransformOutcome) (rd attempt : Nat)
    (kg : KnowledgeGraph) : enrichLoop call rd attempt 0 kg = (kg, attempt, []) := rfl

/-- Unfolding: a failing attempt that is not rate-limited (or is the final
allowed attempt) breaks out of the loop, leaving the graph untouched. -/
lemma enrichLoop_err_stop (call : Nat → TransformOutcome) (rd attempt r : Nat)
    (kg : KnowledgeGraph) (msg : String) (hm : call attempt = .err msg)
    (hstop : is_rate_limit msg = false ∨ r = 0) :
    enrichLoop call rd attempt (r + 1) kg = (kg, attempt + 1, []) := by
  rcases hstop with h | h
  · simp [enrichLoop, hm, h]
  · subst h
    simp [enrichLoop, hm]

/-- Unfolding: a rate-limited failure with attempts left sleeps `rd` and
continues with the next attempt. -/
lemma enrichLoop_err_cont (call : Nat → TransformOutcome) (rd attempt r : Nat)
    (kg : KnowledgeGraph) (msg : String) (hm : call attempt = .err msg)
    (hrl : is_rate_limit msg = true) (hr : 0 < r) :
    enrichLoop call rd attempt (r + 1) kg =
      ((enrichLoop call rd (attempt + 1) r kg).1,
       (enrichLoop call rd (attempt + 1) r kg).2.1,
       rd :: (enrichLoop call rd (attempt + 1) r kg).2.2) := by
  simp [enrichLoop, hm, hrl, hr]

/-- Running the full-path retry loop against calls that always rate-limit
makes every remaining attempt, sleeping `rd` between consecutive attempts,
and leaves the graph untouched. -/
lemma enrichLoop_rate_limited (call : Nat → TransformOutcome) (rd : Nat)
    (kg : KnowledgeGraph)
    (hcall : ∀ i, ∃ msg, call i = .err msg ∧ is_rate_limit msg = true) :
    ∀ r attempt, enrichLoop call rd attempt r kg =
      (kg, attempt + r, List.replicate (r - 1) rd) := by
  intro r
  induction r with
  | zero => intro attempt; simp [enrichLoop_zero]
  | succ n ih =>
    intro attempt
    obtain ⟨msg, hm, hrl⟩ := hcall attempt
    cases n with
    | zero => simp [enrichLoop_err_stop call rd attempt 0 kg msg hm (Or.inr rfl)]
    | succ k =>
      rw [enrichLoop_err_cont call rd attempt (k + 1) kg msg hm hrl (Nat.succ_pos k),
        ih (attempt + 1)]
      simp [List.replicate_succ]
      omega

/-- Running the full-path retry loop against calls that always fail (with any
error) leaves the graph untouched, and makes at least one attempt when any
attempts are allowed. -/
lemma enrichLoop_all_err (call : Nat → TransformOutcome) (rd : Nat)
    (kg : KnowledgeGraph)
    (hcall : ∀ i, ∃ msg, call i = .err msg) :
    ∀ r attempt, (enrichLoop call rd attempt r kg).1 = kg ∧
      (1 ≤ r → attempt + 1 ≤ (enrichLoop call rd attempt r kg).2.1) := by
  intro r
  induction r with
  | zero => intro attempt; exact ⟨by simp [enrichLoop_zero], fun h => absurd h (by omega)⟩
  | succ n ih =>
    intro attempt
    obtain ⟨msg, hm⟩ := hcall attempt
    by_cases hrl : is_rate_limit msg = true
    · cases n with
      | zero =>
        rw [enrichLoop_err_stop call rd attempt 0 kg msg hm (Or.inr rfl)]
        exact ⟨rfl, fun _ => Nat.le_refl _⟩
      | succ k =>
        have h2 := ih (attempt + 1)
        rw [enrichLoop_err_cont call rd attempt (k + 1) kg msg hm hrl (Nat.succ_pos k)]
        refine ⟨h2.1, fun _ => ?_⟩
        have := h2.2 (by omega)
        simpa using le_trans (by omega) this
    · have hrl2 : is_rate_limit msg = false := by simpa using hrl
      rw [enrichLoop_err_stop call rd attempt n kg msg hm (Or.inl hrl2)]
      exact ⟨rfl, fun _ => Nat.le_refl _⟩

/-- Unfolding: a failing generation attempt that is not rate-limited raises
the error immediately. -/
lemma genLoop_err_raise (call : Nat → GenOutcome) (mr rd attempt r : Nat)
    (msg : String) (hm : call attempt = .err msg)
    (hrl : is_rate_limit msg = false) :
    genLoop call mr rd attempt (r + 1) = (.error (.propagated msg), attempt + 1, []) := by
  simp [genLoop, hm, hrl]

/-- Unfolding: a rate-limited failure on the final allowed attempt raises the
explicit rate-limit-exceeded error. -/
lemma genLoop_err_exhausted (call : Nat → GenOutcome) (mr rd attempt : Nat)
    (msg : String) (hm : call attempt = .err msg)
    (hrl : is_rate_limit msg = true) :
    genLoop call mr rd attempt 1 =
      (.error (.rateLimitExceeded mr), attempt + 1, []) := by
  simp [genLoop, hm, hrl]

/-- Unfolding: a rate-limited failure with attempts left sleeps `rd` and
continues with the next attempt. -/
lemma genLoop_err_cont (call : Nat → GenOutcome) (mr rd attempt r : Nat)
    (msg : String) (hm : call attempt = .err msg)
    (hrl : is_rate_limit msg = true) (hr : 0 < r) :
    genLoop call mr rd attempt (r + 1) =
      ((genLoop call mr rd (attempt + 1) r).1,
       (genLoop call mr rd (attempt + 1) r).2.1,
       rd :: (genLoop call mr rd (attempt + 1) r).2.2) := by
  simp [genLoop, hm, hrl, hr]

/-- Running the generation retry loop against calls that always rate-limit
makes every remaining attempt with the fixed sleeps and ends in the explicit
rate-limit-exceeded error. -/
lemma genLoop_rate_limited (call : Nat → GenOutcome) (mr rd : Nat)
    (hcall : ∀ i, ∃ msg, call i = .err msg ∧ is_rate_limit msg = true) :
    ∀ r attempt, 1 ≤ r →
      genLoop call mr rd attempt r =
        (.error (.rateLimitExceeded mr), attempt + r, List.replicate (r - 1) rd) := by
  intro r
  induction r with
  | zero => intro attempt h; exact absurd h (by omega)
  | succ n ih =>
    intro attempt _
    obtain ⟨msg, hm, hrl⟩ := hcall attempt
    cases n with
    | zero => simp [genLoop_err_exhausted call mr rd attempt msg hm hrl]
    | succ k =>
      rw [genLoop_err_cont call mr rd attempt (k + 1) msg hm hrl (Nat.succ_pos k),
        ih (attempt + 1) (by omega)]
      simp [List.replicate_succ]
      omega

/-- Running the generation retry loop where the first `a` attempts rate-limit
and attempt `a` fails with a non-rate-limit error propagates that error
immediately: exactly `a + 1` calls are made, with the `a` fixed sleeps of the
rate-limited prefix and no further retry. -/
lemma genLoop_rl_prefix_raise (call : Nat → GenOutcome) (mr rd : Nat) :
    ∀ a attempt r, a + 1 ≤ r →
      (∀ i, i < a → ∃ m, call (attempt + i) = .err m ∧ is_rate_limit m = true) →
      ∀ msg, call (attempt + a) = .err msg → is_rate_limit msg = false →
      genLoop call mr rd attempt r =
        (.error (.propagated msg), attempt + a + 1, List.replicate a rd) := by
  intro a
  induction a with
  | zero =>
    intro attempt r hr hpre msg hm hrl
    obtain ⟨q, rfl⟩ : ∃ q, r = q + 1 := ⟨r - 1, by omega⟩
    have hm0 : call attempt = .err msg := by simpa using hm
    rw [genLoop_err_raise call mr rd attempt q msg hm0 hrl]
    simp
  | succ b ih =>
    intro attempt r hr hpre msg hm hrl
    obtain ⟨q, rfl⟩ : ∃ q, r = q + 1 := ⟨r - 1, by omega⟩
    obtain ⟨m0, hm0, hrl0⟩ := hpre 0 (by omega)
    have hm0a : call attempt = .err m0 := by simpa using hm0
    rw [genLoop_err_cont call mr rd attempt q m0 hm0a hrl0 (by omega)]
    have hIH := ih (attempt + 1) q (by omega)
      (fun i hi => by
        obtain ⟨m, hmi, hrli⟩ := hpre (i + 1) (by omega)
        refine ⟨m, ?_, hrli⟩
        rw [show attempt + 1 + i = attempt + (i + 1) from by omega]
        exact hmi)
      msg (by
        rw [show attempt + 1 + b = attempt + (b + 1) from by omega]
        exact hm) hrl
    rw [hIH]
    simp [List.replicate_succ]
    omega

/-! ## Claim theorems -/

/-- Claim C2: for every query call that succeeds, each returned source's
`similarity_score` equals `1 -` the raw distance the store returned for that
document, and the `rank` fields are exactly `1..k`, strictly increasing in
the order the store returned the results. -/
theorem query_documents_scores_and_ranks (sys : RAGSystem) (req : QueryRequest) :
    (query_documents sys req).sources.map Source.rank =
      List.range' 1 (sys.store req.query req.num_results).length ∧
    (query_documents sys req).sources.map Source.similarity_score =
      (sys.store req.query req.num_results).map (fun p => 1 - p.2) :=
  ⟨query_sources_rank_eq sys req, query_sources_sim_eq sys req⟩

/-- Claim C6: for every text whose chunking produces `N` chunks, `chunk_text`
returns documents whose `chunk_id`s are exactly `1..N` contiguously in
document order, each carrying `total_chunks = N` and the given
`source_file`. -/
theorem chunk_text_numbering (chunker : String → List String)
    (text source_file : String) :
    (chunk_text chunker text source_file).length = (chunker text).length ∧
    (chunk_text chunker text source_file).map (fun d => d.metadata.chunk_id) =
      (List.range' 1 (chunker text).length).map some ∧
    (chunk_text chunker text source_file).map (fun d => d.metadata.total_chunks) =
      List.replicate (chunker text).length (some (chunker text).length) ∧
    (chunk_text chunker text source_file).map (fun d => d.metadata.source_file) =
      List.replicate (chunker text).length (some source_file) := by
  refine ⟨by simp [chunk_text, List.enumFrom_length], ?_, ?_, ?_⟩
  · unfold chunk_text
    rw [List.map_map]
    exact map_enumFrom_fst_fn _ (fun i => some i) (fun p => rfl) 1 _
  · rw [List.eq_replicate_iff]
    constructor
    · simp [chunk_text, List.enumFrom_length]
    · intro b hb
      unfold chunk_text at hb
      rcases List.mem_map.1 hb with ⟨d, hd, rfl⟩
      rcases List.mem_map.1 hd with ⟨p, hp, rfl⟩
      rfl
  · rw [List.eq_replicate_iff]
    constructor
    · simp [chunk_text, List.enumFrom_length]
    · intro b hb
      unfold chunk_text at hb
      rcases List.mem_map.1 hb with ⟨d, hd, rfl⟩
      rcases List.mem_map.1 hd with ⟨p, hp, rfl⟩
      rfl

/-- Claim C9: calling testset generation when no knowledge graph has been
built fails with the precondition error, without invoking the underlying
generator (zero generator calls in the trace). -/
theorem generate_testset_requires_graph (max_retries retry_delay : Nat)
    (generate : Nat → GenOutcome) :
    generate_testset max_retries retry_delay none generate =
      (.error .knowledgeGraphMissing, ⟨0, []⟩) := rfl

/-- Claim C10: for a fixed store state and query, the answer returned by
`query_documents` is the same for every per-request `num_results`: the QA
chain's retrieval `k` was fixed at initialization to the configured
`num_results`, so the request parameter only affects the sources list. -/
theorem answer_independent_of_num_results (cfg : DBConfig) (c : Collaborators)
    (q : String) (k₁ k₂ : Nat) :
    (query_documents (init_system cfg c) ⟨q, k₁⟩).answer =
      (query_documents (init_system cfg c) ⟨q, k₂⟩).answer := rfl

/-- Claim C3, counterexample: the code computes `similarity = 1 - distance`
without clamping, so a store distance of `2` yields a reported similarity of
`-1`, outside `[0, 1]` — the claim is false as stated for arbitrary store
distances. -/
theorem query_similarity_counterexample :
    ¬ ((query_documents badDistanceSystem ⟨"q", 1⟩).sources.length ≤ 1 ∧
       ∀ s ∈ (query_documents badDistanceSystem ⟨"q", 1⟩).sources,
         0 ≤ s.similarity_score ∧ s.similarity_score ≤ 1) := by
  intro h
  have hm : mkSource 1 sampleDoc 2 ∈
      (query_documents badDistanceSystem ⟨"q", 1⟩).sources := by
    simp [query_documents, badDistanceSystem, List.enumFrom]
  have := h.2 _ hm
  simp [mkSource] at this

/-- Claim C3, amended: the sources list is as long as the store's result list
(hence at most `k` whenever the store honors the requested `k`), and each
`similarity_score` lies in `[0, 1]` provided every raw distance the store
returned lies in `[0, 1]` — the unclamped `1 - d` transform guarantees
nothing for distances outside that interval. -/
theorem query_sources_bounded (sys : RAGSystem) (req : QueryRequest)
    (hk : (sys.store req.query req.num_results).length ≤ req.num_results)
    (hd : ∀ p ∈ sys.store req.query req.num_results, 0 ≤ p.2 ∧ p.2 ≤ 1) :
    (query_documents sys req).sources.length ≤ req.num_results ∧
    ∀ s ∈ (query_documents sys req).sources,
      0 ≤ s.similarity_score ∧ s.similarity_score ≤ 1 := by
  constructor
  · simpa [query_documents, List.enumFrom_length] using hk
  · intro s hs
    have h1 : s.similarity_score ∈
        (query_documents sys req).sources.map Source.similarity_score :=
      List.mem_map_of_mem _ hs
    rw [query_sources_sim_eq] at h1
    obtain ⟨p, hp, hps⟩ := List.mem_map.1 h1
    obtain ⟨h0, h1'⟩ := hd p hp
    constructor
    · rw [← hps]; linarith
    · rw [← hps]; linarith

/-- Witness for `query_sources_bounded` at a store returning one hit with
distance 1/2. -/
theorem query_sources_bounded_witness :
    (goodDistanceSystem.store "q" 1).length ≤ 1 ∧
    (∀ p ∈ goodDistanceSystem.store "q" 1, 0 ≤ p.2 ∧ p.2 ≤ 1) ∧
    ((query_documents goodDistanceSystem ⟨"q", 1⟩).sources.length ≤ 1 ∧
     ∀ s ∈ (query_documents goodDistanceSystem ⟨"q", 1⟩).sources,
       0 ≤ s.similarity_score ∧ s.similarity_score ≤ 1) :=
  ⟨by simp [goodDistanceSystem],
   by intro p hp; simp [goodDistanceSystem] at hp; rw [hp]; exact ⟨by norm_num, by norm_num⟩,
   query_sources_bounded goodDistanceSystem ⟨"q", 1⟩
     (by simp [goodDistanceSystem])
     (by intro p hp; simp [goodDistanceSystem] at hp; rw [hp]
         exact ⟨by norm_num, by norm_num⟩)⟩

/-- Claim C8: whenever the extracted text strips to fewer than 100
characters (or is empty), ingestion is rejected with the input-validation
error before `chunk_text` is invoked, and nothing is added to the vector
store. -/
theorem ingest_rejects_short_text (filename raw : String)
    (chunker : String → List String)
    (hpdf : str_ends_with filename ".pdf" = true)
    (hshort : (pyStrip raw).length < 100) :
    ingest_pdf true filename (.ok raw) chunker =
      (.error (.badRequest "PDF appears to be empty or contains insufficient text"),
       ⟨false, []⟩) := by
  unfold ingest_pdf extract_text_from_pdf
  rw [if_neg (by simp), if_neg (by simp [hpdf])]
  exact if_pos (Or.inr (lt_of_le_of_lt (pyStrip_length_le _) hshort))

/-- Witness for `ingest_rejects_short_text` at a 5-character extraction. -/
theorem ingest_rejects_short_text_witness :
    str_ends_with "contract.pdf" ".pdf" = true ∧
    (pyStrip "short").length < 100 ∧
    ingest_pdf true "contract.pdf" (.ok "short") (fun _ => []) =
      (.error (.badRequest "PDF appears to be empty or contains insufficient text"),
       ⟨false, []⟩) :=
  ⟨by decide, by decide,
   ingest_rejects_short_text "contract.pdf" "short" (fun _ => [])
     (by decide) (by decide)⟩

/-- A `filterMap` that never drops an element preserves length. -/
lemma length_filterMap_of_isSome {α β : Type} (f : α → Option β) :
    ∀ l : List α, (∀ x ∈ l, (f x).isSome) → (l.filterMap f).length = l.length := by
  intro l
  induction l with
  | nil => intro _; simp
  | cons a t ih =>
    intro h
    have ha := h a (by simp)
    cases hfa : f a with
    | none => rw [hfa] at ha; simp at ha
    | some b =>
      simp [List.filterMap_cons, hfa, ih fun x hx => h x (by simp [hx])]

/-- Claim C4: in the full-enrichment path, if every enrichment call signals a
rate-limit condition, exactly `max_retries` attempts are made with the fixed
`retry_delay` sleep between consecutive attempts, and the builder returns the
node-only (non-enriched) graph instead of raising. -/
theorem kg_full_mode_rate_limit_degrades (max_retries retry_delay : Nat)
    (oracle : Nat → List Document → TransformOutcome) (documents : List Document)
    (hrl : ∀ i d, ∃ msg, oracle i d = .err msg ∧ is_rate_limit msg = true) :
    create_knowledge_graph_from_documents max_retries retry_delay oracle documents false =
      ({ nodes := documents.map docNode, relationships := [] },
       { fastCalled := false, fullAttempts := max_retries,
         fullDocsArg := some (if documents.length > max_docs_for_transforms then
           sample_documents documents else documents),
         sleeps := List.replicate (max_retries - 1) retry_delay }) := by
  unfold create_knowledge_graph_from_documents runFullEnrichment
  have h := enrichLoop_rate_limited
    (fun a => oracle a (if max_docs_for_transforms < documents.length then
      sample_documents documents else documents)) retry_delay
    { nodes := documents.map docNode, relationships := [] }
    (fun i => hrl i _) max_retries 0
  simp [h]

/-- Witness for `kg_full_mode_rate_limit_degrades` at `max_retries = 2`,
`retry_delay = 30`, one document, and an always-rate-limited oracle. -/
theorem kg_full_mode_rate_limit_degrades_witness :
    (∀ i d, ∃ msg, rlOracle i d = .err msg ∧ is_rate_limit msg = true) ∧
    create_knowledge_graph_from_documents 2 30 rlOracle [sampleDoc] false =
      ({ nodes := [docNode sampleDoc], relationships := [] },
       { fastCalled := false, fullAttempts := 2, fullDocsArg := some [sampleDoc],
         sleeps := [30] }) :=
  ⟨fun i d => ⟨"429", rfl, by decide⟩,
   by
     have h := kg_full_mode_rate_limit_degrades 2 30 rlOracle [sampleDoc]
       (fun i d => ⟨"429", rfl, by decide⟩)
     simpa [max_docs_for_transforms] using h⟩

/-- Claim C7: in testset generation, an always-rate-limited generation call
is retried up to `max_retries` attempts with the fixed delay and then fails
with the explicit rate-limit-exceeded error (no degraded result), while a
non-rate-limit error at any attempt — after any rate-limited prefix —
propagates immediately without further retry. -/
theorem generate_testset_retry_policy (mr rd : Nat) (kg : KnowledgeGraph)
    (gen : Nat → GenOutcome) (hmr : 1 ≤ mr) :
    ((∀ i, ∃ msg, gen i = .err msg ∧ is_rate_limit msg = true) →
      generate_testset mr rd (some kg) gen =
        (.error (.rateLimitExceeded mr), ⟨mr, List.replicate (mr - 1) rd⟩)) ∧
    (∀ a msg, a + 1 ≤ mr →
      (∀ i, i < a → ∃ m, gen i = .err m ∧ is_rate_limit m = true) →
      gen a = .err msg → is_rate_limit msg = false →
      generate_testset mr rd (some kg) gen =
        (.error (.propagated msg), ⟨a + 1, List.replicate a rd⟩)) := by
  constructor
  · intro hcall
    have h := genLoop_rate_limited gen mr rd hcall mr 0 hmr
    simp [generate_testset, h]
  · intro a msg ha hpre hm hrl
    have h := genLoop_rl_prefix_raise gen mr rd a 0 mr ha
      (fun i hi => by simpa using hpre i hi) msg (by simpa using hm) hrl
    simp [generate_testset, h]

/-- Witness for `generate_testset_retry_policy`: the rate-limited branch, an
immediate non-rate-limit error on the first attempt, and a non-rate-limit
error on the second attempt after one rate-limited attempt, all at
`max_retries = 2`, `retry_delay = 30`. -/
theorem generate_testset_retry_policy_witness :
    (1 : Nat) ≤ 2 ∧
    generate_testset 2 30 (some ⟨[docNode sampleDoc], []⟩) rlGen =
      (.error (.rateLimitExceeded 2), ⟨2, [30]⟩) ∧
    generate_testset 2 30 (some ⟨[docNode sampleDoc], []⟩) failGen =
      (.error (.propagated "boom"), ⟨1, []⟩) ∧
    generate_testset 2 30 (some ⟨[docNode sampleDoc], []⟩) mixedGen =
      (.error (.propagated "boom"), ⟨2, [30]⟩) :=
  ⟨by omega,
   (generate_testset_retry_policy 2 30 ⟨[docNode sampleDoc], []⟩ rlGen (by omega)).1
     (fun i => ⟨"429", rfl, by decide⟩),
   (generate_testset_retry_policy 2 30 ⟨[docNode sampleDoc], []⟩ failGen (by omega)).2
     0 "boom" (by omega) (fun i hi => absurd hi (by omega)) rfl (by decide),
   (generate_testset_retry_policy 2 30 ⟨[docNode sampleDoc], []⟩ mixedGen (by omega)).2
     1 "boom" (by omega)
     (fun i hi => by
       have h0 : i = 0 := by omega
       subst h0
       exact ⟨"429", rfl, by decide⟩)
     rfl (by decide)⟩

/-- Claim C1, counterexample: in fast mode, when the fast enrichment pipeline
throws, the code sets `skip_transforms = False` and falls through to the full
enrichment block — it does not return the node-only graph.  Here the fast
call fails and the full-path call succeeds, so the returned graph carries a
relationship, contradicting the claim at this input. -/
theorem kg_fast_fallback_counterexample :
    ¬ ((create_knowledge_graph_from_documents 2 30 fallbackOracle [sampleDoc] true).1.nodes =
         [sampleDoc].map docNode ∧
       (create_knowledge_graph_from_documents 2 30 fallbackOracle [sampleDoc]
         true).1.relationships = []) := by
  decide

/-- Claim C1, amended: when fast-mode enrichment throws, the builder falls
back to the standard full-enrichment path (which runs at least one transform
attempt and may still add nodes and relationships) rather than returning the
non-enriched graph directly; if that fallback path also fails on every
attempt, the returned graph has exactly the document nodes and no
relationships. -/
theorem kg_fast_fallback_full_path (mr rd : Nat)
    (oracle : Nat → List Document → TransformOutcome) (documents : List Document)
    (hfast : ∃ msg, oracle 0 (documents.take (min 5 documents.length)) = .err msg)
    (hfull : ∀ i d, ∃ msg, oracle (i + 1) d = .err msg)
    (hmr : 1 ≤ mr) :
    (create_knowledge_graph_from_documents mr rd oracle documents true).1 =
      { nodes := documents.map docNode, relationships := [] } ∧
    (create_knowledge_graph_from_documents mr rd oracle documents true).2.fastCalled = true ∧
    1 ≤ (create_knowledge_graph_from_documents mr rd oracle documents true).2.fullAttempts := by
  obtain ⟨msg, hm⟩ := hfast
  have hstep : create_knowledge_graph_from_documents mr rd oracle documents true =
      runFullEnrichment mr rd oracle documents
        { nodes := documents.map docNode, relationships := [] } 1 true := by
    unfold create_knowledge_graph_from_documents
    simp [hm]
  rw [hstep]
  unfold runFullEnrichment
  have hall := enrichLoop_all_err
    (fun a => oracle (1 + a) (if documents.length > max_docs_for_transforms then
      sample_documents documents else documents)) rd
    { nodes := documents.map docNode, relationships := [] }
    (fun i => by
      obtain ⟨m, hm2⟩ := hfull i (if documents.length > max_docs_for_transforms then
        sample_documents documents else documents)
      exact ⟨m, by simpa [Nat.add_comm i 1] using hm2⟩) mr 0
  exact ⟨hall.1, rfl, hall.2 hmr⟩

/-- Witness for `kg_fast_fallback_full_path` at an oracle that fails every
call with a non-rate-limit error. -/
theorem kg_fast_fallback_full_path_witness :
    (∃ msg, failOracle 0 ([sampleDoc].take (min 5 [sampleDoc].length)) = .err msg) ∧
    (∀ i d, ∃ msg, failOracle (i + 1) d = .err msg) ∧
    (1 : Nat) ≤ 2 ∧
    ((create_knowledge_graph_from_documents 2 30 failOracle [sampleDoc] true).1 =
       { nodes := [sampleDoc].map docNode, relationships := [] } ∧
     (create_knowledge_graph_from_documents 2 30 failOracle [sampleDoc]
       true).2.fastCalled = true ∧
     1 ≤ (create_knowledge_graph_from_documents 2 30 failOracle [sampleDoc]
       true).2.fullAttempts) :=
  ⟨⟨"boom", rfl⟩, fun i d => ⟨"boom", rfl⟩, by omega,
   kg_fast_fallback_full_path 2 30 failOracle [sampleDoc] ⟨"boom", rfl⟩
     (fun i d => ⟨"boom", rfl⟩) (by omega)⟩

/-- Index bound for stride sampling: with `step ≥ 1` and `m * step ≤ n`,
every one of the first `m` stride positions is a valid index. -/
lemma stride_index_lt (n m step j : Nat) (hstep : 1 ≤ step)
    (hmul : m * step ≤ n) (hj : j < m) : j * step < n := by
  have h1 : j * step ≤ (m - 1) * step := Nat.mul_le_mul_right _ (by omega)
  have h2 : (m - 1 + 1) * step = (m - 1) * step + step := Nat.succ_mul _ _
  have h3 : m - 1 + 1 = m := by omega
  rw [h3] at h2
  omega

/-- The core of the even-stride computation: for `step ≥ 1` with
`m * step ≤ n`, taking `m` elements of the stride-`step` index comprehension
yields exactly the chunks at indices `0, step, 2*step, …, (m-1)*step`. -/
lemma stride_sample_eq {α : Type} (docs : List α) (m step : Nat)
    (hstep : 1 ≤ step) (hmul : m * step ≤ docs.length) :
    ((pyRange docs.length step).filterMap (fun i => docs[i]?)).take m =
      (List.range m).filterMap (fun j => docs[j * step]?) := by
  have hceil : m ≤ (docs.length + step - 1) / step := by
    rw [Nat.le_div_iff_mul_le (by omega)]
    omega
  unfold pyRange
  rw [List.filterMap_map]
  have hsplitr : List.range ((docs.length + step - 1) / step) =
      List.range m ++
        (List.range ((docs.length + step - 1) / step - m)).map (fun x => m + x) := by
    rw [← List.range_add]
    congr 1
    omega
  rw [hsplitr, List.filterMap_append]
  have hsome : ∀ j ∈ List.range m,
      (((fun i => docs[i]?) ∘ fun k => k * step) j).isSome := by
    intro j hj
    have hjm := List.mem_range.1 hj
    have hlt := stride_index_lt docs.length m step j hstep hmul hjm
    show (docs[j * step]?).isSome
    rw [List.getElem?_eq_getElem hlt]
    rfl
  have hA : ((List.range m).filterMap ((fun i => docs[i]?) ∘ fun k => k * step)).length
      = m := by
    rw [length_filterMap_of_isSome _ _ hsome, List.length_range]
  rw [List.take_left' hA]
  rfl

/-- `sample_documents` under the `n > 30` guard picks the chunks at indices
`0, step, 2*step, …` with `step = n / 30`, truncated to 30 items. -/
lemma sample_documents_eq {α : Type} (docs : List α)
    (h : max_docs_for_transforms < docs.length) :
    sample_documents docs =
      (List.range max_docs_for_transforms).filterMap
        (fun j => docs[j * (docs.length / max_docs_for_transforms)]?) := by
  have hm : 0 < max_docs_for_transforms := by decide
  have hstep : 1 ≤ docs.length / max_docs_for_transforms :=
    (Nat.one_le_div_iff hm).2 (le_of_lt h)
  have hmul : max_docs_for_transforms * (docs.length / max_docs_for_transforms)
      ≤ docs.length := by
    rw [Nat.mul_comm]
    exact Nat.div_mul_le_self docs.length max_docs_for_transforms
  exact stride_sample_eq docs max_docs_for_transforms _ hstep hmul

/-- Under the guard, the sample always has exactly 30 elements. -/
lemma sample_documents_length {α : Type} (docs : List α)
    (h : max_docs_for_transforms < docs.length) :
    (sample_documents docs).length = max_docs_for_transforms := by
  rw [sample_documents_eq docs h]
  have hm : 0 < max_docs_for_transforms := by decide
  have hstep : 1 ≤ docs.length / max_docs_for_transforms :=
    (Nat.one_le_div_iff hm).2 (le_of_lt h)
  have hmul : max_docs_for_transforms * (docs.length / max_docs_for_transforms)
      ≤ docs.length := by
    rw [Nat.mul_comm]
    exact Nat.div_mul_le_self docs.length max_docs_for_transforms
  have hsome : ∀ j ∈ List.range max_docs_for_transforms,
      (docs[j * (docs.length / max_docs_for_transforms)]?).isSome := by
    intro j hj
    have hjm := List.mem_range.1 hj
    have hlt := stride_index_lt docs.length max_docs_for_transforms _ j hstep hmul hjm
    rw [List.getElem?_eq_getElem hlt]
    rfl
  rw [length_filterMap_of_isSome _ _ hsome, List.length_range]

set_option maxRecDepth 8000 in
/-- Claim C5: in the full-enrichment path, for every chunk sequence longer
than 30 the sampled subsequence is obtained by even stride — `step = n / 30`,
taking the chunks at indices `0, step, 2*step, …` and truncating to 30
items; in particular for `n = 93` the step is 3, the sampled indices are
`0, 3, 6, …` truncated to 30 items, and the sample is a strict subsequence
of the input preserving the original relative order. -/
theorem sample_documents_even_stride {α : Type} (docs : List α)
    (h : max_docs_for_transforms < docs.length) :
    sample_documents docs =
      (List.range max_docs_for_transforms).filterMap
        (fun j => docs[j * (docs.length / max_docs_for_transforms)]?) ∧
    (sample_documents docs).length = max_docs_for_transforms ∧
    (List.range 93 : List Nat).length / max_docs_for_transforms = 3 ∧
    sample_documents (List.range 93) = (List.range 30).map (fun j => j * 3) ∧
    List.Sublist (sample_documents (List.range 93)) (List.range 93) ∧
    sample_documents (List.range 93) ≠ List.range 93 :=
  ⟨sample_documents_eq docs h, sample_documents_length docs h,
   by decide, by decide, by decide, by decide⟩

set_option maxRecDepth 8000 in
/-- Witness for `sample_documents_even_stride` at a 31-chunk corpus. -/
theorem sample_documents_even_stride_witness :
    max_docs_for_transforms < (List.range 31).length ∧
    (sample_documents (List.range 31) =
      (List.range max_docs_for_transforms).filterMap
        (fun j => (List.range 31)[j * ((List.range 31).length / max_docs_for_transforms)]?) ∧
     (sample_documents (List.range 31)).length = max_docs_for_transforms ∧
     (List.range 93 : List Nat).length / max_docs_for_transforms = 3 ∧
     sample_documents (List.range 93) = (List.range 30).map (fun j => j * 3) ∧
     List.Sublist (sample_documents (List.range 93)) (List.range 93) ∧
     sample_documents (List.range 93) ≠ List.range 93) :=
  ⟨by decide, sample_documents_even_stride (List.range 31) (by decide)⟩

end ContractIQ
